import Mathlib

/-!
Shallow embedding of the Malaysian income-tax calculator.

Namespace `AppTsx` models `src/App.tsx`: `calculateTax` walks the ordered
bracket list, consuming `remainingIncome` bracket by bracket.  Namespace
`Part000` models the second source file: `calculateTax` looks up the single
range containing the income in a precomputed cumulative fixed-amount table
and adds the bracket rate on the excess; `computeSummary` is the summary
recomputation effect, and the `...Stored` functions are the values the input
handlers store.  All JavaScript numbers are modelled as rationals.
-/

structure TaxBracket where
  min : ℚ
  max : Option ℚ
  rate : ℚ
  deriving DecidableEq

structure TaxRange where
  start : ℚ
  next : Option ℚ
  fixedAmount : ℚ
  deriving DecidableEq

structure CalculationResult where
  totalDeductions : ℚ
  taxableIncome : ℚ
  taxAmount : ℚ
  effectiveRate : ℚ
  deriving DecidableEq

namespace AppTsx

def taxBrackets : List TaxBracket :=
  [⟨0, some 5000, 0⟩, ⟨5001, some 20000, 1⟩, ⟨20001, some 35000, 3⟩,
   ⟨35001, some 50000, 8⟩, ⟨50001, some 70000, 13⟩, ⟨70001, some 100000, 21⟩,
   ⟨100001, some 250000, 24⟩, ⟨250001, some 400000, 24.5⟩,
   ⟨400001, some 600000, 25⟩, ⟨600001, some 1000000, 26⟩, ⟨1000001, none, 28⟩]

/-- One iteration of the `for` loop inside `calculateTax`.  The loop's
`break` on `remainingIncome <= 0` is modelled by leaving the accumulator
`(totalTax, remainingIncome)` unchanged, which agrees with breaking out of
the loop because from then on the state never changes again.  The
JavaScript conditional `bracket.max ? ... : remainingIncome` tests `max`
for null; no bracket has `max = 0`, so truthiness coincides with being
non-null. -/
def loopStep (acc : ℚ × ℚ) (b : TaxBracket) : ℚ × ℚ :=
  if acc.2 ≤ 0 then acc
  else
    let taxableAmount :=
      match b.max with
      | some m => min acc.2 (m - b.min + 1)
      | none => acc.2
    (acc.1 + taxableAmount * b.rate / 100, acc.2 - taxableAmount)

def calculateTax (income : ℚ) : ℚ :=
  (taxBrackets.foldl loopStep (0, income)).1

/-- The value `handleDeductionChange` stores for a deduction:
`Math.min(numericValue, deduction.maxAmount)`. -/
def handleDeductionChangeStored (numericValue maxAmount : ℚ) : ℚ :=
  min numericValue maxAmount

end AppTsx

namespace Part000

def taxBrackets : List TaxBracket :=
  [⟨0, some 5000, 0⟩, ⟨5001, some 20000, 1⟩, ⟨20001, some 35000, 3⟩,
   ⟨35001, some 50000, 6⟩, ⟨50001, some 70000, 11⟩, ⟨70001, some 100000, 19⟩,
   ⟨100001, some 400000, 25⟩, ⟨400001, some 600000, 26⟩,
   ⟨600001, some 2000000, 28⟩, ⟨2000001, none, 30⟩]

def taxRanges : List TaxRange :=
  [⟨0, some 5000, 0⟩, ⟨5001, some 20000, 0⟩, ⟨20001, some 35000, 150⟩,
   ⟨35001, some 50000, 600⟩, ⟨50001, some 70000, 1500⟩,
   ⟨70001, some 100000, 3700⟩, ⟨100001, some 400000, 9400⟩,
   ⟨400001, some 600000, 84400⟩, ⟨600001, some 2000000, 136400⟩,
   ⟨2000001, none, 528400⟩]

/-- The predicate of the range lookup:
`income >= r.start && (r.next === null || income <= r.next)`. -/
def rangeMatches (income : ℚ) (r : TaxRange) : Bool :=
  decide (r.start ≤ income) &&
    (match r.next with
     | none => true
     | some n => decide (income ≤ n))

/-- The predicate of the bracket lookup:
`income >= b.min && (b.max === null || income <= b.max)`. -/
def bracketMatches (income : ℚ) (b : TaxBracket) : Bool :=
  decide (b.min ≤ income) &&
    (match b.max with
     | none => true
     | some m => decide (income ≤ m))

def calculateTax (income : ℚ) : ℚ :=
  if income ≤ 0 then 0
  else
    match taxRanges.find? (rangeMatches income) with
    | none => 0
    | some range =>
      match taxBrackets.find? (bracketMatches income) with
      | none => 0
      | some bracket =>
        if income ≤ 5000 then 0
        else range.fixedAmount + (income - range.start) * bracket.rate / 100

/-- The summary recomputation effect: from the parsed income, the parsed
EPF and SOCSO contribution amounts and the stored deduction and rebate
values (`Object.values` of the two records), compute the four outputs. -/
def computeSummary (income epfDeduction socsoDeduction : ℚ)
    (deductions rebates : List ℚ) : CalculationResult :=
  let reliefDeductions := deductions.foldl (fun s v => s + v) 0
  let totalDeductionsAmount := epfDeduction + socsoDeduction + reliefDeductions
  let calculatedTaxableIncome := max 0 (income - totalDeductionsAmount)
  let calculatedTax := calculateTax calculatedTaxableIncome
  let totalRebates := rebates.foldl (fun s v => s + v) 0
  let finalTax := max 0 (calculatedTax - totalRebates)
  ⟨totalDeductionsAmount, calculatedTaxableIncome, finalTax,
   if 0 < income then finalTax / income * 100 else 0⟩

/-- The value `handleDeductionChange` stores for a deduction:
`Math.min(numericValue, deduction.maxAmount)`. -/
def handleDeductionChangeStored (numericValue maxAmount : ℚ) : ℚ :=
  min numericValue maxAmount

/-- The value `handleRebateChange` stores for a rebate: the parsed numeric
value itself, with no clamping in either direction. -/
def handleRebateChangeStored (numericValue : ℚ) : ℚ :=
  numericValue

end Part000

/-- Well-formedness of one bracket: a non-negative rate and, when the
bracket is bounded, a non-negative width `max - min + 1`.  Both source
tables satisfy it. -/
def bracketOK (b : TaxBracket) : Prop :=
  0 ≤ b.rate ∧ ∀ m, b.max = some m → 0 ≤ m - b.min + 1

theorem loopStep_skip (b : TaxBracket) (acc : ℚ × ℚ) (h : acc.2 ≤ 0) :
    AppTsx.loopStep acc b = acc := by
  simp [AppTsx.loopStep, h]

theorem foldl_loopStep_skip (l : List TaxBracket) (acc : ℚ × ℚ) (h : acc.2 ≤ 0) :
    l.foldl AppTsx.loopStep acc = acc := by
  induction l with
  | nil => rfl
  | cons b l ih => rw [List.foldl_cons, loopStep_skip b acc h]; exact ih

theorem loopStep_fst_nonneg (b : TaxBracket) (hb : bracketOK b) (acc : ℚ × ℚ)
    (h : 0 ≤ acc.1) : 0 ≤ (AppTsx.loopStep acc b).1 := by
  rcases hb with ⟨hrate, hmax⟩
  by_cases hr : acc.2 ≤ 0
  · simpa [AppTsx.loopStep, hr]
  · push_neg at hr
    rcases hm : b.max with _ | m
    · simp only [AppTsx.loopStep, if_neg (not_le.mpr hr), hm]
      exact add_nonneg h (div_nonneg (mul_nonneg hr.le hrate) (by norm_num))
    · simp only [AppTsx.loopStep, if_neg (not_le.mpr hr), hm]
      have hamt : 0 ≤ min acc.2 (m - b.min + 1) := le_min hr.le (hmax m hm)
      exact add_nonneg h (div_nonneg (mul_nonneg hamt hrate) (by norm_num))

theorem foldl_loopStep_fst_nonneg (l : List TaxBracket) (hl : ∀ b ∈ l, bracketOK b) :
    ∀ acc : ℚ × ℚ, 0 ≤ acc.1 → 0 ≤ (l.foldl AppTsx.loopStep acc).1 := by
  induction l with
  | nil => exact fun acc h => h
  | cons b l ih =>
    intro acc h
    rw [List.foldl_cons]
    exact ih (fun x hx => hl x (List.mem_cons_of_mem _ hx)) _
      (loopStep_fst_nonneg b (hl b (List.mem_cons_self _ _)) acc h)

theorem loopStep_mono (b : TaxBracket) (hb : bracketOK b) (a c : ℚ × ℚ)
    (h1 : a.1 ≤ c.1) (h2 : a.2 ≤ c.2) :
    (AppTsx.loopStep a b).1 ≤ (AppTsx.loopStep c b).1 ∧
    (AppTsx.loopStep a b).2 ≤ (AppTsx.loopStep c b).2 := by
  rcases hb with ⟨hrate, hmax⟩
  by_cases ha : a.2 ≤ 0 <;> by_cases hc : c.2 ≤ 0
  · simp [AppTsx.loopStep, ha, hc, h1, h2]
  · push_neg at hc
    simp only [AppTsx.loopStep, if_pos ha, if_neg (not_le.mpr hc)]
    rcases hm : b.max with _ | m
    · constructor
      · exact h1.trans (le_add_of_nonneg_right
          (div_nonneg (mul_nonneg hc.le hrate) (by norm_num)))
      · simpa using ha.trans (by norm_num)
    · have hamt : 0 ≤ min c.2 (m - b.min + 1) := le_min hc.le (hmax m hm)
      constructor
      · exact h1.trans (le_add_of_nonneg_right
          (div_nonneg (mul_nonneg hamt hrate) (by norm_num)))
      · have : 0 ≤ c.2 - min c.2 (m - b.min + 1) :=
          sub_nonneg.mpr (min_le_left _ _)
        linarith
  · exact absurd (h2.trans hc) ha
  · push_neg at ha hc
    simp only [AppTsx.loopStep, if_neg (not_le.mpr ha), if_neg (not_le.mpr hc)]
    rcases hm : b.max with _ | m
    · exact ⟨add_le_add h1 (div_le_div_of_nonneg_right
        (mul_le_mul_of_nonneg_right h2 hrate) (by norm_num)), by simp⟩
    · have hmin : min a.2 (m - b.min + 1) ≤ min c.2 (m - b.min + 1) :=
        min_le_min h2 le_rfl
      constructor
      · exact add_le_add h1 (div_le_div_of_nonneg_right
          (mul_le_mul_of_nonneg_right hmin hrate) (by norm_num))
      · have ea : a.2 - min a.2 (m - b.min + 1) = max (a.2 - a.2) (a.2 - (m - b.min + 1)) :=
          sub_inf _ _ _
        have ec : c.2 - min c.2 (m - b.min + 1) = max (c.2 - c.2) (c.2 - (m - b.min + 1)) :=
          sub_inf _ _ _
        rw [ea, ec, sub_self, sub_self]
        exact max_le_max le_rfl (sub_le_sub_right h2 _)

theorem foldl_loopStep_mono (l : List TaxBracket) (hl : ∀ b ∈ l, bracketOK b) :
    ∀ a c : ℚ × ℚ, a.1 ≤ c.1 → a.2 ≤ c.2 →
      (l.foldl AppTsx.loopStep a).1 ≤ (l.foldl AppTsx.loopStep c).1 ∧
      (l.foldl AppTsx.loopStep a).2 ≤ (l.foldl AppTsx.loopStep c).2 := by
  induction l with
  | nil => exact fun a c h1 h2 => ⟨h1, h2⟩
  | cons b l ih =>
    intro a c h1 h2
    rw [List.foldl_cons, List.foldl_cons]
    have hstep := loopStep_mono b (hl b (List.mem_cons_self _ _)) a c h1 h2
    exact ih (fun x hx => hl x (List.mem_cons_of_mem _ hx)) _ _ hstep.1 hstep.2

theorem taxBracketsApp_OK : ∀ b ∈ AppTsx.taxBrackets, bracketOK b := by
  intro b hb
  fin_cases hb <;>
    refine ⟨by norm_num, fun m hm => ?_⟩ <;>
    first
      | (injection hm with h; subst h; norm_num)
      | injection hm

theorem taxBracketsP0_OK : ∀ b ∈ Part000.taxBrackets, bracketOK b := by
  intro b hb
  fin_cases hb <;>
    refine ⟨by norm_num, fun m hm => ?_⟩ <;>
    first
      | (injection hm with h; subst h; norm_num)
      | injection hm

theorem foldl_add_eq_sum (l : List ℚ) (t : ℚ) :
    l.foldl (fun s v => s + v) t = t + l.sum := by
  induction l generalizing t with
  | nil => simp
  | cons v l ih => simp [List.foldl_cons, ih, add_assoc]

theorem calculateTax_loop_nonpos (x : ℚ) (h : x ≤ 0) : AppTsx.calculateTax x = 0 := by
  unfold AppTsx.calculateTax
  rw [foldl_loopStep_skip _ _ h]

theorem calculateTax_loop_low (x : ℚ) (h0 : 0 < x) (h1 : x ≤ 5001) :
    AppTsx.calculateTax x = 0 := by
  unfold AppTsx.calculateTax AppTsx.taxBrackets
  rw [List.foldl_cons]
  have hmin : min x ((5000 : ℚ) - 0 + 1) = x := min_eq_left (by linarith)
  have hstep : AppTsx.loopStep (0, x) ⟨0, some 5000, 0⟩ = (0, 0) := by
    simp [AppTsx.loopStep, not_le.mpr h0, hmin]
    rw [min_eq_left (by linarith)]
    ring
  rw [hstep, foldl_loopStep_skip _ _ (le_refl 0)]

theorem calculateTax_loop_mid (x : ℚ) (h0 : 5001 < x) (h1 : x ≤ 20000) :
    AppTsx.calculateTax x = (x - 5001) / 100 := by
  unfold AppTsx.calculateTax AppTsx.taxBrackets
  rw [List.foldl_cons, List.foldl_cons]
  have hs1 : AppTsx.loopStep (0, x) ⟨0, some 5000, 0⟩ = (0, x - 5001) := by
    have hmin : min x ((5000 : ℚ) - 0 + 1) = (5000 : ℚ) - 0 + 1 :=
      min_eq_right (by linarith)
    simp only [AppTsx.loopStep, if_neg (not_le.mpr (by linarith : (0 : ℚ) < x)), hmin]
    norm_num
  have hs2 : AppTsx.loopStep (0, x - 5001) ⟨5001, some 20000, 1⟩
      = ((x - 5001) * 1 / 100, 0) := by
    have hmin : min (x - 5001) ((20000 : ℚ) - 5001 + 1) = x - 5001 :=
      min_eq_left (by linarith)
    simp only [AppTsx.loopStep, if_neg (not_le.mpr (by linarith : (0 : ℚ) < x - 5001)), hmin]
    norm_num
  rw [hs1, hs2, foldl_loopStep_skip _ _ (le_refl 0)]
  ring

theorem calculateTax_fixed_nonpos (x : ℚ) (h : x ≤ 0) : Part000.calculateTax x = 0 := by
  simp [Part000.calculateTax, h]

theorem calculateTax_fixed_low (x : ℚ) (h0 : 0 < x) (h1 : x ≤ 5000) :
    Part000.calculateTax x = 0 := by
  unfold Part000.calculateTax Part000.taxRanges Part000.taxBrackets
  rw [if_neg (not_le.mpr h0),
    List.find?_cons_of_pos _ (by simp [Part000.rangeMatches]; exact ⟨h0.le, h1⟩),
    List.find?_cons_of_pos _ (by simp [Part000.bracketMatches]; exact ⟨h0.le, h1⟩)]
  simp [h1]

theorem calculateTax_fixed_gap1 (x : ℚ) (h0 : 5000 < x) (h1 : x < 5001) :
    Part000.calculateTax x = 0 := by
  unfold Part000.calculateTax
  rw [if_neg (not_le.mpr (by linarith : (0 : ℚ) < x))]
  have hnone : Part000.taxRanges.find? (Part000.rangeMatches x) = none := by
    refine List.find?_eq_none.mpr ?_
    intro r hr
    fin_cases hr <;> simp [Part000.rangeMatches] <;> intros <;> linarith
  rw [hnone]

theorem calculateTax_fixed_mid (x : ℚ) (h0 : 5001 ≤ x) (h1 : x ≤ 20000) :
    Part000.calculateTax x = (x - 5001) / 100 := by
  unfold Part000.calculateTax Part000.taxRanges Part000.taxBrackets
  rw [if_neg (not_le.mpr (by linarith : (0 : ℚ) < x)),
    List.find?_cons_of_neg _ (by simp [Part000.rangeMatches]; intros; linarith),
    List.find?_cons_of_pos _ (by simp [Part000.rangeMatches]; exact ⟨by linarith, h1⟩),
    List.find?_cons_of_neg _ (by simp [Part000.bracketMatches]; intros; linarith),
    List.find?_cons_of_pos _ (by simp [Part000.bracketMatches]; exact ⟨by linarith, h1⟩)]
  have h5 : ¬ x ≤ (5000 : ℚ) := by linarith
  simp only [h5, if_false]
  ring

/-- C1 (amended): the claim that the two bracket-computation formulations
agree on every income fails (see `calculateTax_variants_differ_at_100000`,
where the loop walk yields 10,699.79 and the fixed-amount lookup 9,399.81,
the two tables carrying different rate schedules from 35,001 upward).  The
nearby true statement: the two formulations produce identical results for
every income in the interval [0, 20000]. -/
theorem calculateTax_variants_agree_upto_20000 (x : ℚ) (h0 : 0 ≤ x) (h1 : x ≤ 20000) :
    AppTsx.calculateTax x = Part000.calculateTax x := by
  rcases le_or_lt x 0 with h | hpos
  · rw [calculateTax_loop_nonpos x h, calculateTax_fixed_nonpos x h]
  · rcases le_or_lt x 5000 with h | h5000
    · rw [calculateTax_loop_low x hpos (by linarith), calculateTax_fixed_low x hpos h]
    · rcases lt_or_le x 5001 with h' | h'
      · rw [calculateTax_loop_low x hpos h'.le, calculateTax_fixed_gap1 x h5000 h']
      · rw [calculateTax_fixed_mid x h' h1]
        rcases eq_or_lt_of_le h' with heq | h''
        · rw [← heq, calculateTax_loop_low 5001 (by norm_num) le_rfl]
          norm_num
        · rw [calculateTax_loop_mid x h'' h1]

/-- C1 counterexample: at income 100,000 the bracket-walk loop of
`src/App.tsx` returns 10,699.79 while the fixed-amount lookup of the other
variant returns 9,399.81, so the two formulations are not equivalent. -/
theorem calculateTax_variants_differ_at_100000 :
    AppTsx.calculateTax 100000 ≠ Part000.calculateTax 100000 := by
  have h1 : AppTsx.calculateTax 100000 = 1069979 / 100 := by
    norm_num [AppTsx.calculateTax, AppTsx.taxBrackets, AppTsx.loopStep]
  have h2 : Part000.calculateTax 100000 = 939981 / 100 := by
    norm_num [Part000.calculateTax, Part000.taxRanges, Part000.taxBrackets,
      Part000.rangeMatches, Part000.bracketMatches, List.find?]
  rw [h1, h2]
  norm_num

/-- C1 witness: at income 10,000 the two formulations agree (both 49.99). -/
theorem calculateTax_variants_agree_at_10000 :
    AppTsx.calculateTax 10000 = Part000.calculateTax 10000 :=
  calculateTax_variants_agree_upto_20000 10000 (by norm_num) (by norm_num)

/-- C4 (amended): the claim that every implementation variant is monotone
over all real-valued incomes fails for the fixed-amount variant (see
`calculateTax_fixed_not_monotone`: it drops from 149.99 at 20,000 to 0 at
20,000.5, inside the inter-range gap).  The loop variant is monotonically
non-decreasing for every pair 0 ≤ x ≤ y. -/
theorem calculateTax_loop_monotone (x y : ℚ) (hx : 0 ≤ x) (hxy : x ≤ y) :
    AppTsx.calculateTax x ≤ AppTsx.calculateTax y :=
  (foldl_loopStep_mono AppTsx.taxBrackets taxBracketsApp_OK (0, x) (0, y) le_rfl hxy).1

/-- C4 counterexample: the fixed-amount variant is not monotone over the
real-valued incomes: 20000 ≤ 20000.5 yet the computed tax drops from
149.99 to 0. -/
theorem calculateTax_fixed_not_monotone :
    (20000 : ℚ) ≤ 40001 / 2 ∧
    ¬ Part000.calculateTax 20000 ≤ Part000.calculateTax (40001 / 2) := by
  refine ⟨by norm_num, ?_⟩
  have h1 : Part000.calculateTax 20000 = 14999 / 100 := by
    norm_num [Part000.calculateTax, Part000.taxRanges, Part000.taxBrackets,
      Part000.rangeMatches, Part000.bracketMatches, List.find?]
  have h2 : Part000.calculateTax (40001 / 2) = 0 := by
    norm_num [Part000.calculateTax, Part000.taxRanges, Part000.taxBrackets,
      Part000.rangeMatches, Part000.bracketMatches, List.find?]
  rw [h1, h2]
  norm_num

/-- C4 witness: monotonicity of the loop variant applied at 0 ≤ 100000. -/
theorem calculateTax_loop_monotone_at_100000 :
    AppTsx.calculateTax 0 ≤ AppTsx.calculateTax 100000 :=
  calculateTax_loop_monotone 0 100000 le_rfl (by norm_num)

/-- C10: both `calculateTax` variants are total and non-negative on every
rational input; in particular each returns 0 for any income ≤ 0 — the
fixed-amount variant by its explicit guard, the loop variant because the
accumulation exits at once. -/
theorem calculateTax_total_and_nonneg (x : ℚ) :
    (x ≤ 0 → AppTsx.calculateTax x = 0 ∧ Part000.calculateTax x = 0) ∧
    0 ≤ AppTsx.calculateTax x ∧ 0 ≤ Part000.calculateTax x := by
  refine ⟨fun h => ⟨calculateTax_loop_nonpos x h, calculateTax_fixed_nonpos x h⟩, ?_, ?_⟩
  · exact foldl_loopStep_fst_nonneg _ taxBracketsApp_OK (0, x) le_rfl
  · by_cases h : x ≤ 0
    · simp [Part000.calculateTax, h]
    · unfold Part000.calculateTax
      rw [if_neg h]
      rcases hr : Part000.taxRanges.find? (Part000.rangeMatches x) with _ | r
      · simp
      · rcases hb : Part000.taxBrackets.find? (Part000.bracketMatches x) with _ | b
        · simp
        · by_cases h5 : x ≤ 5000
          · simp [h5]
          · simp only [h5, if_false]
            have hrp := List.find?_some hr
            simp only [Part000.rangeMatches, Bool.and_eq_true, decide_eq_true_eq] at hrp
            have hstart : r.start ≤ x := hrp.1
            have hfix : 0 ≤ r.fixedAmount := by
              have := List.mem_of_find?_eq_some hr
              fin_cases this <;> norm_num
            have hrate : 0 ≤ b.rate := by
              have := List.mem_of_find?_eq_some hb
              fin_cases this <;> norm_num
            exact add_nonneg hfix
              (div_nonneg (mul_nonneg (sub_nonneg.mpr hstart) hrate) (by norm_num))

/-- C5 (amended): the claim that crossing a bracket boundary adds one unit
taxed at the marginal rate of bracket i+1 fails in both variants (see
`calculateTax_boundary_uses_lower_rate_cex`).  What holds instead: for every
non-final bracket with upper bound ub, computeTax(ub + 1) equals
computeTax(ub) plus the marginal rate of the bracket CONTAINING ub (bracket
i, the lower one) applied to one unit, in both variants at every internal
boundary; no unit is double-counted or skipped, but the extra unit is taxed
at the lower bracket's rate. -/
theorem calculateTax_boundary_steps :
    AppTsx.calculateTax 5001 = AppTsx.calculateTax 5000 + 0 / 100 ∧
    AppTsx.calculateTax 20001 = AppTsx.calculateTax 20000 + 1 / 100 ∧
    AppTsx.calculateTax 35001 = AppTsx.calculateTax 35000 + 3 / 100 ∧
    AppTsx.calculateTax 50001 = AppTsx.calculateTax 50000 + 8 / 100 ∧
    AppTsx.calculateTax 70001 = AppTsx.calculateTax 70000 + 13 / 100 ∧
    AppTsx.calculateTax 100001 = AppTsx.calculateTax 100000 + 21 / 100 ∧
    AppTsx.calculateTax 250001 = AppTsx.calculateTax 250000 + 24 / 100 ∧
    AppTsx.calculateTax 400001 = AppTsx.calculateTax 400000 + (49 / 2) / 100 ∧
    AppTsx.calculateTax 600001 = AppTsx.calculateTax 600000 + 25 / 100 ∧
    AppTsx.calculateTax 1000001 = AppTsx.calculateTax 1000000 + 26 / 100 ∧
    Part000.calculateTax 5001 = Part000.calculateTax 5000 + 0 / 100 ∧
    Part000.calculateTax 20001 = Part000.calculateTax 20000 + 1 / 100 ∧
    Part000.calculateTax 35001 = Part000.calculateTax 35000 + 3 / 100 ∧
    Part000.calculateTax 50001 = Part000.calculateTax 50000 + 6 / 100 ∧
    Part000.calculateTax 70001 = Part000.calculateTax 70000 + 11 / 100 ∧
    Part000.calculateTax 100001 = Part000.calculateTax 100000 + 19 / 100 ∧
    Part000.calculateTax 400001 = Part000.calculateTax 400000 + 25 / 100 ∧
    Part000.calculateTax 600001 = Part000.calculateTax 600000 + 26 / 100 ∧
    Part000.calculateTax 2000001 = Part000.calculateTax 2000000 + 28 / 100 := by
  refine ⟨?_, ?_, ?_, ?_, ?_, ?_, ?_, ?_, ?_, ?_, ?_, ?_, ?_, ?_, ?_, ?_, ?_, ?_, ?_⟩
  · norm_num [AppTsx.calculateTax, AppTsx.taxBrackets, AppTsx.loopStep]
  · norm_num [AppTsx.calculateTax, AppTsx.taxBrackets, AppTsx.loopStep]
  · norm_num [AppTsx.calculateTax, AppTsx.taxBrackets, AppTsx.loopStep]
  · norm_num [AppTsx.calculateTax, AppTsx.taxBrackets, AppTsx.loopStep]
  · norm_num [AppTsx.calculateTax, AppTsx.taxBrackets, AppTsx.loopStep]
  · norm_num [AppTsx.calculateTax, AppTsx.taxBrackets, AppTsx.loopStep]
  · norm_num [AppTsx.calculateTax, AppTsx.taxBrackets, AppTsx.loopStep]
  · norm_num [AppTsx.calculateTax, AppTsx.taxBrackets, AppTsx.loopStep]
  · norm_num [AppTsx.calculateTax, AppTsx.taxBrackets, AppTsx.loopStep]
  · norm_num [AppTsx.calculateTax, AppTsx.taxBrackets, AppTsx.loopStep]
  · norm_num [Part000.calculateTax, Part000.taxRanges, Part000.taxBrackets,
      Part000.rangeMatches, Part000.bracketMatches, List.find?]
  · norm_num [Part000.calculateTax, Part000.taxRanges, Part000.taxBrackets,
      Part000.rangeMatches, Part000.bracketMatches, List.find?]
  · norm_num [Part000.calculateTax, Part000.taxRanges, Part000.taxBrackets,
      Part000.rangeMatches, Part000.bracketMatches, List.find?]
  · norm_num [Part000.calculateTax, Part000.taxRanges, Part000.taxBrackets,
      Part000.rangeMatches, Part000.bracketMatches, List.find?]
  · norm_num [Part000.calculateTax, Part000.taxRanges, Part000.taxBrackets,
      Part000.rangeMatches, Part000.bracketMatches, List.find?]
  · norm_num [Part000.calculateTax, Part000.taxRanges, Part000.taxBrackets,
      Part000.rangeMatches, Part000.bracketMatches, List.find?]
  · norm_num [Part000.calculateTax, Part000.taxRanges, Part000.taxBrackets,
      Part000.rangeMatches, Part000.bracketMatches, List.find?]
  · norm_num [Part000.calculateTax, Part000.taxRanges, Part000.taxBrackets,
      Part000.rangeMatches, Part000.bracketMatches, List.find?]
  · norm_num [Part000.calculateTax, Part000.taxRanges, Part000.taxBrackets,
      Part000.rangeMatches, Part000.bracketMatches, List.find?]

/-- C5 counterexample: at the boundary 20,000 (next bracket rate 3 percent
in both tables) neither variant satisfies the claimed equation
computeTax(20000) + 3/100 = computeTax(20001): both sides evaluate to
150.02 versus 150. -/
theorem calculateTax_boundary_uses_lower_rate_cex :
    ¬ AppTsx.calculateTax 20001 = AppTsx.calculateTax 20000 + 3 / 100 ∧
    ¬ Part000.calculateTax 20001 = Part000.calculateTax 20000 + 3 / 100 := by
  constructor
  · have h1 : AppTsx.calculateTax 20001 = 150 := by
      norm_num [AppTsx.calculateTax, AppTsx.taxBrackets, AppTsx.loopStep]
    have h2 : AppTsx.calculateTax 20000 = 14999 / 100 := by
      norm_num [AppTsx.calculateTax, AppTsx.taxBrackets, AppTsx.loopStep]
    rw [h1, h2]
    norm_num
  · have h1 : Part000.calculateTax 20001 = 150 := by
      norm_num [Part000.calculateTax, Part000.taxRanges, Part000.taxBrackets,
        Part000.rangeMatches, Part000.bracketMatches, List.find?]
    have h2 : Part000.calculateTax 20000 = 14999 / 100 := by
      norm_num [Part000.calculateTax, Part000.taxRanges, Part000.taxBrackets,
        Part000.rangeMatches, Part000.bracketMatches, List.find?]
    rw [h1, h2]
    norm_num

/-- C8: in the fixed-amount-table variant, for every real-valued income
lying strictly inside any of the nine gaps between one range's upper bound
and the next range's lower bound (for example 5000.5 in the open interval
(5000, 5001)), the range lookup finds no matching range and `calculateTax`
returns 0 — even though incomes below later gaps are taxed positively
(0 < calculateTax 20000 = 149.99 while every income in (20000, 20001) is
taxed 0). -/
theorem calculateTax_fixed_gaps_untaxed (x : ℚ)
    (h : 5000 < x ∧ x < 5001 ∨ 20000 < x ∧ x < 20001 ∨ 35000 < x ∧ x < 35001 ∨
         50000 < x ∧ x < 50001 ∨ 70000 < x ∧ x < 70001 ∨ 100000 < x ∧ x < 100001 ∨
         400000 < x ∧ x < 400001 ∨ 600000 < x ∧ x < 600001 ∨
         2000000 < x ∧ x < 2000001) :
    Part000.taxRanges.find? (Part000.rangeMatches x) = none ∧
    Part000.calculateTax x = 0 ∧ 0 < Part000.calculateTax 20000 := by
  have hx : 0 < x := by
    rcases h with ⟨h1, _⟩ | ⟨h1, _⟩ | ⟨h1, _⟩ | ⟨h1, _⟩ | ⟨h1, _⟩ | ⟨h1, _⟩ | ⟨h1, _⟩ |
      ⟨h1, _⟩ | ⟨h1, _⟩ <;> linarith
  have hnone : Part000.taxRanges.find? (Part000.rangeMatches x) = none := by
    refine List.find?_eq_none.mpr ?_
    intro r hr
    fin_cases hr <;>
      rcases h with ⟨h1, h2⟩ | ⟨h1, h2⟩ | ⟨h1, h2⟩ | ⟨h1, h2⟩ | ⟨h1, h2⟩ | ⟨h1, h2⟩ |
        ⟨h1, h2⟩ | ⟨h1, h2⟩ | ⟨h1, h2⟩ <;>
      simp [Part000.rangeMatches] <;> intros <;> linarith
  refine ⟨hnone, ?_, ?_⟩
  · unfold Part000.calculateTax
    rw [if_neg (not_le.mpr hx), hnone]
  · have h20 : Part000.calculateTax 20000 = 14999 / 100 := by
      norm_num [Part000.calculateTax, Part000.taxRanges, Part000.taxBrackets,
        Part000.rangeMatches, Part000.bracketMatches, List.find?]
    rw [h20]
    norm_num

/-- C8 witness: at the concrete income 5000.5 the range lookup fails and
the computed tax is 0. -/
theorem calculateTax_fixed_gap_at_5000_5 :
    Part000.taxRanges.find? (Part000.rangeMatches (10001 / 2)) = none ∧
    Part000.calculateTax (10001 / 2) = 0 :=
  ⟨(calculateTax_fixed_gaps_untaxed (10001 / 2) (Or.inl ⟨by norm_num, by norm_num⟩)).1,
   (calculateTax_fixed_gaps_untaxed (10001 / 2) (Or.inl ⟨by norm_num, by norm_num⟩)).2.1⟩

/-- C2: with income 100,000, only the default personal deduction of 9,000
stored, no contributions and all three rebates 0, the summary computation
over the fixed-amount bracket table (rates 0/1/3/6/11/19/25/26/28/30,
fixed amounts 0/0/150/600/1500/3700/9400/84400/136400/528400) yields
taxableIncome = 91,000, taxAmount = 3700 + (91000 − 70001) × 0.19
= 7,689.81 and effectiveRate = 7.68981 ≈ 7.69 percent. -/
theorem computeSummary_scenario_100000 :
    Part000.taxBrackets.map TaxBracket.rate = [0, 1, 3, 6, 11, 19, 25, 26, 28, 30] ∧
    Part000.taxRanges.map TaxRange.fixedAmount
      = [0, 0, 150, 600, 1500, 3700, 9400, 84400, 136400, 528400] ∧
    (Part000.computeSummary 100000 0 0 [9000] [0, 0, 0]).taxableIncome = 91000 ∧
    (Part000.computeSummary 100000 0 0 [9000] [0, 0, 0]).taxAmount
      = 3700 + (91000 - 70001) * (19 / 100) ∧
    (Part000.computeSummary 100000 0 0 [9000] [0, 0, 0]).taxAmount = 768981 / 100 ∧
    (Part000.computeSummary 100000 0 0 [9000] [0, 0, 0]).effectiveRate = 768981 / 100000 ∧
    |(Part000.computeSummary 100000 0 0 [9000] [0, 0, 0]).effectiveRate - 769 / 100|
      < 1 / 100 := by
  refine ⟨by norm_num [Part000.taxBrackets], by norm_num [Part000.taxRanges],
    ?_, ?_, ?_, ?_, ?_⟩ <;>
  · norm_num [Part000.computeSummary, Part000.calculateTax, Part000.taxRanges,
      Part000.taxBrackets, Part000.rangeMatches, Part000.bracketMatches, List.find?]
    try norm_num [abs_lt]

/-- C3 (code bug): `handleDeductionChange` stores
`Math.min(numericValue, maxAmount)` with no lower clamp at 0 in either
source variant, so a parsed claim of −100 against the 9,000 cap is stored
as −100 (negative), where the specified `min(max(rawAmount, 0), cap)`
yields 0. -/
theorem handleDeductionChange_stores_negative :
    Part000.handleDeductionChangeStored (-100) 9000 = -100 ∧
    Part000.handleDeductionChangeStored (-100) 9000 < 0 ∧
    AppTsx.handleDeductionChangeStored (-100) 9000 = -100 ∧
    min (max (-100 : ℚ) 0) 9000 = 0 := by
  have h : Part000.handleDeductionChangeStored (-100) 9000 = -100 :=
    min_eq_left (by norm_num)
  refine ⟨h, by rw [h]; norm_num, min_eq_left (by norm_num), ?_⟩
  rw [max_eq_right (by norm_num : (-100 : ℚ) ≤ 0)]
  exact min_eq_left (by norm_num)

/-- C6 (amended): for every combination of inputs — including negative
contribution amounts and negative stored deductions — the summary
computation never returns a negative taxableIncome or taxAmount (both are
floored by max(0, ·)); its totalDeductions, however, is a plain sum, and
is non-negative only when the contribution amounts and all stored
deduction values are non-negative.  The unconditional claim fails for
totalDeductions: a negative deduction claim survives the cap (see
`computeSummary_negative_totalDeductions`), making totalDeductions
negative. -/
theorem computeSummary_outputs_nonneg (income epf socso : ℚ) (deds rebs : List ℚ) :
    0 ≤ (Part000.computeSummary income epf socso deds rebs).taxableIncome ∧
    0 ≤ (Part000.computeSummary income epf socso deds rebs).taxAmount ∧
    (0 ≤ epf → 0 ≤ socso → (∀ d ∈ deds, 0 ≤ d) →
      0 ≤ (Part000.computeSummary income epf socso deds rebs).totalDeductions) := by
  simp only [Part000.computeSummary]
  refine ⟨le_max_left _ _, le_max_left _ _, fun hepf hsocso hdeds => ?_⟩
  rw [foldl_add_eq_sum, zero_add]
  have hsum : 0 ≤ deds.sum := List.sum_nonneg hdeds
  linarith

/-- C6 counterexample: the deduction-change handler stores min(−100, 9000)
= −100, and with income 0 and no contributions the summary's
totalDeductions is then −100 < 0. -/
theorem computeSummary_negative_totalDeductions :
    (Part000.computeSummary 0 0 0
      [Part000.handleDeductionChangeStored (-100) 9000] []).totalDeductions < 0 := by
  have h : Part000.handleDeductionChangeStored (-100) 9000 = -100 :=
    min_eq_left (by norm_num)
  rw [h]
  norm_num [Part000.computeSummary]

/-- C6 witness: with income 100,000, zero contributions and the single
non-negative stored deduction 9,000, all three outputs are non-negative. -/
theorem computeSummary_outputs_nonneg_at :
    0 ≤ (Part000.computeSummary 100000 0 0 [9000] []).totalDeductions ∧
    0 ≤ (Part000.computeSummary 100000 0 0 [9000] []).taxableIncome ∧
    0 ≤ (Part000.computeSummary 100000 0 0 [9000] []).taxAmount :=
  ⟨(computeSummary_outputs_nonneg 100000 0 0 [9000] []).2.2 le_rfl le_rfl
      (by intro d hd; rw [List.mem_singleton] at hd; rw [hd]; norm_num),
    (computeSummary_outputs_nonneg 100000 0 0 [9000] []).1,
    (computeSummary_outputs_nonneg 100000 0 0 [9000] []).2.1⟩

/-- C7: the summary's final tax payable equals
max(0, calculateTax(taxableIncome) − sum of the rebate values); the
summary's taxableIncome is always ≥ 0, and when the rebates sum to at
least the computed tax the final tax is exactly 0, never negative. -/
theorem computeSummary_rebate_floor (income epf socso : ℚ) (deds rebs : List ℚ) :
    ((Part000.computeSummary income epf socso deds rebs).taxAmount =
      max 0 (Part000.calculateTax
        (Part000.computeSummary income epf socso deds rebs).taxableIncome - rebs.sum)) ∧
    0 ≤ (Part000.computeSummary income epf socso deds rebs).taxableIncome ∧
    (Part000.calculateTax
        (Part000.computeSummary income epf socso deds rebs).taxableIncome ≤ rebs.sum →
      (Part000.computeSummary income epf socso deds rebs).taxAmount = 0) ∧
    0 ≤ (Part000.computeSummary income epf socso deds rebs).taxAmount := by
  simp only [Part000.computeSummary, foldl_add_eq_sum, zero_add]
  exact ⟨trivial, le_max_left _ _, fun hle => max_eq_left (sub_nonpos.mpr hle),
    le_max_left _ _⟩

/-- C9: the rebate-change handler stores the parsed value with no lower
clamp at 0: a rebate of −100 is stored as −100, and in the income-100,000
scenario the resulting taxAmount 7,789.81 strictly exceeds
calculateTax(taxableIncome) = 7,689.81. -/
theorem handleRebateChange_negative_passthrough :
    Part000.handleRebateChangeStored (-100) = -100 ∧
    Part000.handleRebateChangeStored (-100) < 0 ∧
    (Part000.computeSummary 100000 0 0 [9000]
      [Part000.handleRebateChangeStored (-100)]).taxableIncome = 91000 ∧
    Part000.calculateTax 91000 = 768981 / 100 ∧
    (Part000.computeSummary 100000 0 0 [9000]
      [Part000.handleRebateChangeStored (-100)]).taxAmount = 778981 / 100 ∧
    Part000.calculateTax 91000 <
      (Part000.computeSummary 100000 0 0 [9000]
        [Part000.handleRebateChangeStored (-100)]).taxAmount := by
  refine ⟨rfl, by norm_num [Part000.handleRebateChangeStored], ?_, ?_, ?_, ?_⟩ <;>
    norm_num [Part000.computeSummary, Part000.handleRebateChangeStored,
      Part000.calculateTax, Part000.taxRanges, Part000.taxBrackets,
      Part000.rangeMatches, Part000.bracketMatches, List.find?]
